import Mathlib

/-!
Verification of the awesomeVM MIPS32 core (Go) against its specification.

Machine integers are modelled as `Nat` with explicit reduction modulo `2^32`
where Go's `uint32` arithmetic wraps; `int32` values are modelled as `Int`
with explicit two's-complement conversions.  Each definition is a direct
transcription of the corresponding Go function.
-/

namespace AwesomeVM

/-- `2^32`, the modulus of Go's `uint32` arithmetic. -/
def two32 : Nat := 4294967296

/-- Reduce a natural number to a `uint32` value. -/
def mask32 (x : Nat) : Nat := x % two32

/-- Go's `x &^ m` (and-not) on `uint32` values. -/
def andNot (x m : Nat) : Nat := x &&& (0xFFFFFFFF ^^^ (m &&& 0xFFFFFFFF))

/-- Go's `uint32` subtraction `a - b` (wrapping), for `b ≤ 2^32`. -/
def sub32 (a b : Nat) : Nat := (a + two32 - b) % two32

/-- Interpret a `uint32` bit pattern as Go's `int32` (two's complement). -/
def toI32 (x : Nat) : Int :=
  if x % two32 < 2147483648 then (x % two32 : Int) else (x % two32 : Int) - 4294967296

/-- The `uint32` bit pattern of an `Int`, i.e. Go's `uint32(v)` for `v : int32`. -/
def ofI32 (i : Int) : Nat := (i % 4294967296).toNat

/-- Go's wrapping `int32` arithmetic: reduce an exact integer result to `int32`. -/
def wrapI32 (i : Int) : Int := toI32 (ofI32 i)

/-- `utils.CheckAdditionOverflow` (src/internal/utils/overflow.go): reports
overflow of `a + b` when both operands are positive and the wrapped sum is
negative, or both negative and the wrapped sum is positive. -/
def CheckAdditionOverflow (a b sum : Int) : Bool :=
  (decide (a > 0) && decide (b > 0) && decide (sum < 0)) ||
  (decide (a < 0) && decide (b < 0) && decide (sum > 0))

/-- `utils.CheckSubtractionOverflow` (src/internal/utils/overflow.go). -/
def CheckSubtractionOverflow (a b diff : Int) : Bool :=
  (decide (a < 0) && decide (b > 0) && decide (diff > 0)) ||
  (decide (a > 0) && decide (b < 0) && decide (diff < 0))

/-- `mips.TLBEntry` (src/internal/mips/cop0.go): a two-page MIPS TLB entry.
`VPN2`, `PFN0`, `PFN1`, `Mask` are `uint32` patterns; `ASID`, `C0`, `C1` are
`uint8` patterns. -/
structure TLBEntry where
  VPN2 : Nat
  ASID : Nat
  G : Bool
  PFN0 : Nat
  C0 : Nat
  D0 : Bool
  V0 : Bool
  PFN1 : Nat
  C1 : Nat
  D1 : Bool
  V1 : Bool
  Mask : Nat
deriving DecidableEq

/-- The Go zero value of `TLBEntry` (as produced by `make([]TLBEntry, n)`). -/
def TLBEntry.empty : TLBEntry :=
  { VPN2 := 0, ASID := 0, G := false, PFN0 := 0, C0 := 0, D0 := false, V0 := false
    PFN1 := 0, C1 := 0, D1 := false, V1 := false, Mask := 0 }

/-- `mips.COP0` (src/internal/mips/cop0.go): the CP0 register file and TLB.
All register fields are `uint32` patterns; `tlbSize` is Go's `int` (always
non-negative after construction, hence `Nat`). -/
structure COP0 where
  tlb : List TLBEntry
  tlbSize : Nat
  index : Nat
  random : Nat
  entryLo0 : Nat
  entryLo1 : Nat
  context : Nat
  pageMask : Nat
  wired : Nat
  badVAddr : Nat
  count : Nat
  entryHi : Nat
  compare : Nat
  status : Nat
  cause : Nat
  epc : Nat
  prid : Nat
  ebase : Nat
  config0 : Nat
  config1 : Nat
  lladdr : Nat
  watchLo : Nat
  watchHi : Nat
  xcontext : Nat
  errorepc : Nat
deriving DecidableEq

/-- `mips.NewCOP0` (src/internal/mips/cop0.go): construct a CP0 with a TLB of
the given size, clamping non-positive sizes to 16. -/
def NewCOP0 (tlbSizeIn : Int) : COP0 :=
  let n : Nat := if tlbSizeIn ≤ 0 then 16 else tlbSizeIn.toNat
  { tlb := List.replicate n TLBEntry.empty
    tlbSize := n
    index := 0
    random := mask32 (n - 1)
    entryLo0 := 0, entryLo1 := 0, context := 0, pageMask := 0
    wired := 0
    badVAddr := 0, count := 0, entryHi := 0, compare := 0
    status := 0, cause := 0, epc := 0
    prid := 0x00018000
    ebase := 0x80000000
    config0 := (1 <<< 31) ||| 0x3
    config1 := ((mask32 (n - 1)) &&& 0xF) <<< 25
    lladdr := 0, watchLo := 0, watchHi := 0, xcontext := 0
    errorepc := 0 }

/-- `COP0.Read` (src/internal/mips/cop0.go): return the value of CP0 register
`(reg, sel)`.  The Go method takes the receiver by pointer, so the embedding
threads the state through explicitly and returns it alongside the value; the
body performs no assignment to the receiver in any branch. -/
def COP0.Read (c : COP0) (reg sel : Int) : Nat × COP0 :=
  if reg = 0 then (if sel = 0 then (c.index, c) else (0, c))
  else if reg = 1 then (if sel = 0 then (c.random, c) else (0, c))
  else if reg = 2 then (if sel = 0 then (c.entryLo0, c) else (0, c))
  else if reg = 3 then (if sel = 0 then (c.entryLo1, c) else (0, c))
  else if reg = 4 then (if sel = 0 then (c.context, c) else (0, c))
  else if reg = 5 then (if sel = 0 then (c.pageMask, c) else (0, c))
  else if reg = 6 then (if sel = 0 then (c.wired, c) else (0, c))
  else if reg = 8 then (if sel = 0 then (c.badVAddr, c) else (0, c))
  else if reg = 9 then (if sel = 0 then (c.count, c) else (0, c))
  else if reg = 10 then (if sel = 0 then (c.entryHi, c) else (0, c))
  else if reg = 11 then (if sel = 0 then (c.compare, c) else (0, c))
  else if reg = 12 then (if sel = 0 then (c.status, c) else (0, c))
  else if reg = 13 then (if sel = 0 then (c.cause, c) else (0, c))
  else if reg = 14 then (if sel = 0 then (c.epc, c) else (0, c))
  else if reg = 15 then
    (if sel = 0 then (c.prid, c) else if sel = 1 then (c.ebase, c) else (0, c))
  else if reg = 16 then
    (if sel = 0 then (c.config0, c) else if sel = 1 then (c.config1, c) else (0, c))
  else if reg = 17 then (if sel = 0 then (c.lladdr, c) else (0, c))
  else if reg = 18 then (if sel = 0 then (c.watchLo, c) else (0, c))
  else if reg = 19 then (if sel = 0 then (c.watchHi, c) else (0, c))
  else if reg = 20 then (if sel = 0 then (c.xcontext, c) else (0, c))
  else if reg = 30 then (if sel = 0 then (c.errorepc, c) else (0, c))
  else (0, c)

/-- The `cp0RegIndex` case of `COP0.Write` (src/internal/mips/cop0.go):
keep the read-only P bit, clamp the 6-bit index to `< tlbSize`. -/
def COP0.writeIndexCase (c : COP0) (val : Nat) : COP0 :=
  let p := c.index &&& 0x80000000
  let idx := (mask32 val) &&& 0x3F
  let idx := if idx ≥ c.tlbSize then mask32 (c.tlbSize - 1) else idx
  { c with index := p ||| idx }

/-- The `cp0RegRandom` case of `COP0.Write`: clamp into
`[wired, tlbSize-1]`. -/
def COP0.writeRandomCase (c : COP0) (val : Nat) : COP0 :=
  let v := mask32 val
  let v := if v < c.wired then c.wired else v
  let rmax := mask32 (c.tlbSize - 1)
  let v := if v > rmax then rmax else v
  { c with random := v }

/-- The `cp0RegWired` case of `COP0.Write`: mask to 6 bits, clamp to
`< tlbSize`, and push Random back into range if needed. -/
def COP0.writeWiredCase (c : COP0) (val : Nat) : COP0 :=
  let w := (mask32 val) &&& 0x3F
  let w := if w ≥ c.tlbSize then mask32 (c.tlbSize - 1) else w
  let rmax := mask32 (c.tlbSize - 1)
  let r := if c.random < w ∨ c.random > rmax then rmax else c.random
  { c with wired := w, random := r }

/-- The `cp0RegCompare` case of `COP0.Write`: store Compare and clear TI and
IP7 in Cause. -/
def COP0.writeCompareCase (c : COP0) (val : Nat) : COP0 :=
  { c with compare := mask32 val
           cause := andNot c.cause (0x40000000 ||| (1 <<< 15)) }

/-- The `cp0RegCause` case of `COP0.Write`: only IV and the two software IP
bits are writable. -/
def COP0.writeCauseCase (c : COP0) (val : Nat) : COP0 :=
  let cs := if (mask32 val) &&& 0x00800000 ≠ 0
            then c.cause ||| 0x00800000
            else andNot c.cause 0x00800000
  let sw := ((mask32 val) >>> 8) &&& 0x3
  let cs := andNot cs (0x3 <<< 8)
  let cs := cs ||| (sw <<< 8)
  { c with cause := cs }

/-- The `cp0RegConfig` (sel 0) case of `COP0.Write`: keep the M bit, accept
K0. -/
def COP0.writeConfig0Case (c : COP0) (val : Nat) : COP0 :=
  let m := c.config0 &&& (1 <<< 31)
  { c with config0 := m ||| (val &&& 0x7) }

/-- The `cp0RegEntryLo0` case of `COP0.Write`: keep the 30 LSBs. -/
def COP0.writeEntryLo0Case (c : COP0) (val : Nat) : COP0 :=
  { c with entryLo0 := val &&& 0x3FFFFFFF }

/-- The `cp0RegEntryLo1` case of `COP0.Write`: keep the 30 LSBs. -/
def COP0.writeEntryLo1Case (c : COP0) (val : Nat) : COP0 :=
  { c with entryLo1 := val &&& 0x3FFFFFFF }

/-- The `cp0RegContext` case of `COP0.Write`. -/
def COP0.writeContextCase (c : COP0) (val : Nat) : COP0 :=
  { c with context := mask32 val }

/-- The `cp0RegPageMask` case of `COP0.Write`: bits `[24:13]`. -/
def COP0.writePageMaskCase (c : COP0) (val : Nat) : COP0 :=
  { c with pageMask := val &&& 0x01FFE000 }

/-- The `cp0RegCount` case of `COP0.Write`. -/
def COP0.writeCountCase (c : COP0) (val : Nat) : COP0 :=
  { c with count := mask32 val }

/-- The `cp0RegEntryHi` case of `COP0.Write`: keep VPN2 and ASID. -/
def COP0.writeEntryHiCase (c : COP0) (val : Nat) : COP0 :=
  { c with entryHi := val &&& 0xFFFFE0FF }

/-- The `cp0RegStatus` case of `COP0.Write`: replace the register fully. -/
def COP0.writeStatusCase (c : COP0) (val : Nat) : COP0 :=
  { c with status := mask32 val }

/-- The `cp0RegEPC` case of `COP0.Write`. -/
def COP0.writeEPCCase (c : COP0) (val : Nat) : COP0 :=
  { c with epc := mask32 val }

/-- The `cp0RegPRId` (sel 1) case of `COP0.Write`: EBase accepts the full
value. -/
def COP0.writeEBaseCase (c : COP0) (val : Nat) : COP0 :=
  { c with ebase := mask32 val }

/-- The `cp0RegLLAddr` case of `COP0.Write`. -/
def COP0.writeLLAddrCase (c : COP0) (val : Nat) : COP0 :=
  { c with lladdr := mask32 val }

/-- The `cp0RegWatchLo` case of `COP0.Write`. -/
def COP0.writeWatchLoCase (c : COP0) (val : Nat) : COP0 :=
  { c with watchLo := mask32 val }

/-- The `cp0RegWatchHi` case of `COP0.Write`. -/
def COP0.writeWatchHiCase (c : COP0) (val : Nat) : COP0 :=
  { c with watchHi := mask32 val }

/-- The `cp0RegXContext` case of `COP0.Write`. -/
def COP0.writeXContextCase (c : COP0) (val : Nat) : COP0 :=
  { c with xcontext := mask32 val }

/-- The `cp0RegErrorEPC` case of `COP0.Write`. -/
def COP0.writeErrorEPCCase (c : COP0) (val : Nat) : COP0 :=
  { c with errorepc := mask32 val }

/-- `COP0.Write` (src/internal/mips/cop0.go): set CP0 register `(reg, sel)`
and apply side effects.  Each `case` of the Go switch is its own definition
above; `val` is the `uint32` argument and raw stores apply `mask32`,
reflecting the parameter's `uint32` type.  Writes to BadVAddr (reg 8) and
PRId (reg 15 sel 0) are ignored, as is every unlisted `(reg, sel)` pair. -/
def COP0.Write (c : COP0) (reg sel : Int) (val : Nat) : COP0 :=
  if reg = 0 then
    if sel = 0 then c.writeIndexCase val else c
  else if reg = 1 then
    if sel = 0 then c.writeRandomCase val else c
  else if reg = 2 then
    if sel = 0 then c.writeEntryLo0Case val else c
  else if reg = 3 then
    if sel = 0 then c.writeEntryLo1Case val else c
  else if reg = 4 then
    if sel = 0 then c.writeContextCase val else c
  else if reg = 5 then
    if sel = 0 then c.writePageMaskCase val else c
  else if reg = 6 then
    if sel = 0 then c.writeWiredCase val else c
  else if reg = 8 then
    c
  else if reg = 9 then
    if sel = 0 then c.writeCountCase val else c
  else if reg = 10 then
    if sel = 0 then c.writeEntryHiCase val else c
  else if reg = 11 then
    if sel = 0 then c.writeCompareCase val else c
  else if reg = 12 then
    if sel = 0 then c.writeStatusCase val else c
  else if reg = 13 then
    if sel = 0 then c.writeCauseCase val else c
  else if reg = 14 then
    if sel = 0 then c.writeEPCCase val else c
  else if reg = 15 then
    if sel = 0 then c
    else if sel = 1 then c.writeEBaseCase val
    else c
  else if reg = 16 then
    if sel = 0 then c.writeConfig0Case val else c
  else if reg = 17 then
    if sel = 0 then c.writeLLAddrCase val else c
  else if reg = 18 then
    if sel = 0 then c.writeWatchLoCase val else c
  else if reg = 19 then
    if sel = 0 then c.writeWatchHiCase val else c
  else if reg = 20 then
    if sel = 0 then c.writeXContextCase val else c
  else if reg = 30 then
    if sel = 0 then c.writeErrorEPCCase val else c
  else c

/-- `COP0.Step` (src/internal/mips/cop0.go): cycle the Random register
downward inside `[wired, tlbSize-1]`. -/
def COP0.Step (c : COP0) : COP0 :=
  if c.tlbSize = 0 then c
  else
    let c := if c.random = 0xFFFFFFFF then { c with random := mask32 (c.tlbSize - 1) } else c
    if c.random ≤ c.wired then { c with random := mask32 (c.tlbSize - 1) }
    else
      let r := sub32 c.random 1
      if r < c.wired then { c with random := mask32 (c.tlbSize - 1) }
      else { c with random := r }

/-- `COP0.Tick` (src/internal/mips/cop0.go): add `cycles` to Count; when
Count lands exactly on a non-zero Compare, set Cause.TI and IP7. -/
def COP0.Tick (c : COP0) (cycles : Nat) : COP0 :=
  let c := { c with count := mask32 (c.count + cycles) }
  if c.compare ≠ 0 ∧ c.count = c.compare then
    { c with cause := (c.cause ||| 0x40000000) ||| (1 <<< 15) }
  else c

/-- `COP0.RaiseException` (src/internal/mips/cop0.go): set Cause.ExcCode,
EPC/BD, set Status.EXL, and return the exception vector together with the
updated state. -/
def COP0.RaiseException (c : COP0) (excCode : Nat) (pc : Nat) (inDelaySlot : Bool) :
    Nat × COP0 :=
  let cause := andNot c.cause 0x7C
  let cause := cause ||| ((excCode &&& 0x1F) <<< 2)
  let cause := if inDelaySlot then cause ||| 0x80000000 else andNot cause 0x80000000
  let epc := if inDelaySlot then sub32 (mask32 pc) 4 else mask32 pc
  let status := c.status ||| 0x2
  let baseBEV : Nat := 0xBFC00000
  let vec := if excCode = 0 ∧ cause &&& 0x00800000 ≠ 0
             then baseBEV + 0x200 else baseBEV + 0x180
  let vec := if c.ebase ≥ 0x80000000 ∧ c.ebase < 0xBFC00000 then
               if excCode = 0 ∧ cause &&& 0x00800000 ≠ 0
               then c.ebase + 0x200 else c.ebase + 0x180
             else vec
  (vec, { c with cause := cause, epc := epc, status := status })

/-- `COP0.ERET` (src/internal/mips/cop0.go): clear Cause.BD; clear ERL and
return ErrorEPC when ERL is set, else clear EXL and return EPC. -/
def COP0.ERET (c : COP0) : Nat × COP0 :=
  let c := { c with cause := andNot c.cause 0x80000000 }
  if c.status &&& 0x4 ≠ 0 then (c.errorepc, { c with status := andNot c.status 0x4 })
  else (c.epc, { c with status := andNot c.status 0x2 })

/-- `COP0.TLBP` (src/internal/mips/cop0.go): probe the TLB for a match on
EntryHi's VPN2/ASID; set Index on hit, set Index.P on miss. -/
def COP0.TLBP (c : COP0) : COP0 :=
  let vpn2 := c.entryHi &&& 0xFFFFE000
  let asid := c.entryHi &&& 0xFF
  match (c.tlb.take c.tlbSize).findIdx?
      (fun e => e.VPN2 == vpn2 && (e.G || e.ASID == asid)) with
  | some i => { c with index := i &&& 0x3F }
  | none => { c with index := 0x80000000 }

/-- `COP0.TLBR` (src/internal/mips/cop0.go): read the TLB entry at Index into
EntryHi/EntryLo0/EntryLo1/PageMask; no-op when Index.P is set or the index is
out of range. -/
def COP0.TLBR (c : COP0) : COP0 :=
  if c.index &&& 0x80000000 ≠ 0 then c
  else
    let idx := c.index &&& 0x3F
    if idx ≥ c.tlbSize then c
    else
      let e := c.tlb.getD idx TLBEntry.empty
      let lo0 := e.PFN0 &&& 0xFFFFFC0
      let lo0 := lo0 ||| ((e.C0 &&& 0x7) <<< 3)
      let lo0 := if e.D0 then lo0 ||| (1 <<< 2) else lo0
      let lo0 := if e.V0 then lo0 ||| (1 <<< 1) else lo0
      let lo0 := if e.G then lo0 ||| 1 else lo0
      let lo1 := e.PFN1 &&& 0xFFFFFC0
      let lo1 := lo1 ||| ((e.C1 &&& 0x7) <<< 3)
      let lo1 := if e.D1 then lo1 ||| (1 <<< 2) else lo1
      let lo1 := if e.V1 then lo1 ||| (1 <<< 1) else lo1
      let lo1 := if e.G then lo1 ||| 1 else lo1
      { c with entryHi := (e.VPN2 &&& 0xFFFFE000) ||| e.ASID
               pageMask := e.Mask &&& 0x01FFE000
               entryLo0 := lo0
               entryLo1 := lo1 }

/-- `COP0.writeTLBAt` (src/internal/mips/cop0.go): decode the staging
registers into TLB entry `idx`. -/
def COP0.writeTLBAt (c : COP0) (idx : Nat) : COP0 :=
  let lo0 := c.entryLo0 &&& 0x3FFFFFFF
  let lo1 := c.entryLo1 &&& 0x3FFFFFFF
  let e : TLBEntry :=
    { VPN2 := c.entryHi &&& 0xFFFFE000
      ASID := c.entryHi &&& 0xFF
      G := (lo0 &&& 1 != 0) && (lo1 &&& 1 != 0)
      PFN0 := (lo0 >>> 6) &&& 0xFFFFFC0
      C0 := (lo0 >>> 3) &&& 0x7
      D0 := lo0 &&& (1 <<< 2) != 0
      V0 := lo0 &&& (1 <<< 1) != 0
      PFN1 := (lo1 >>> 6) &&& 0xFFFFFC0
      C1 := (lo1 >>> 3) &&& 0x7
      D1 := lo1 &&& (1 <<< 2) != 0
      V1 := lo1 &&& (1 <<< 1) != 0
      Mask := c.pageMask &&& 0x01FFE000 }
  { c with tlb := c.tlb.set idx e }

/-- `COP0.TLBWI` (src/internal/mips/cop0.go): write the staging registers to
`TLB[Index]`; no-op when Index.P is set or the index is out of range. -/
def COP0.TLBWI (c : COP0) : COP0 :=
  if c.index &&& 0x80000000 ≠ 0 then c
  else
    let idx := c.index &&& 0x3F
    if idx ≥ c.tlbSize then c
    else c.writeTLBAt idx

/-- `COP0.TLBWR` (src/internal/mips/cop0.go): write the staging registers to
`TLB[Random]` (clamped to `[wired, tlbSize-1]`), then Step. -/
def COP0.TLBWR (c : COP0) : COP0 :=
  if c.tlbSize = 0 then c
  else
    let idx := c.random &&& 0x3F
    let idx := if idx < c.wired then c.wired else idx
    let idx := if idx ≥ c.tlbSize then c.tlbSize - 1 else idx
    (c.writeTLBAt idx).Step

namespace Mips32

/-- `mips32.Memory` (src/internal/mips32/memory.go): a flat byte array.
Bytes are `Nat` values below 256. -/
structure Memory where
  Data : List Nat
deriving DecidableEq

/-- `Memory.isAligned` (src/internal/mips32/memory.go): the address is a
multiple of 4. -/
def Memory.isAligned (_ : Memory) (address : Nat) : Bool :=
  address % 4 == 0

/-- `Memory.isAddressInRange` (src/internal/mips32/memory.go): checks
`address+3 < uint32(len(Data))`, with `uint32` wrap-around on the addition. -/
def Memory.isAddressInRange (m : Memory) (address : Nat) : Bool :=
  mask32 (address + 3) < mask32 m.Data.length

/-- `Memory.LoadWord` (src/internal/mips32/memory.go): big-endian aligned
word load; `none` models `ok = false`.  Note the Go code passes `address+3`
to `isAddressInRange`, which adds 3 again.  Out-of-range byte indexing (which
would panic in Go) is totalised with a 0 default; the range guard makes the
default unreachable for non-wrapping addresses. -/
def Memory.LoadWord (m : Memory) (address : Nat) : Option Nat :=
  if !m.isAligned address || !m.isAddressInRange (mask32 (address + 3)) then none
  else
    some ((m.Data.getD address 0) <<< 24 |||
          (m.Data.getD (address + 1) 0) <<< 16 |||
          (m.Data.getD (address + 2) 0) <<< 8 |||
          (m.Data.getD (address + 3) 0))

/-- `Memory.StoreWord` (src/internal/mips32/memory.go): big-endian aligned
word store; `none` models `ok = false`.  Same double range check as
`LoadWord`. -/
def Memory.StoreWord (m : Memory) (address : Nat) (value : Nat) : Option Memory :=
  if !m.isAligned address || !m.isAddressInRange (mask32 (address + 3)) then none
  else
    let v := mask32 value
    some { Data := ((((m.Data.set address ((v >>> 24) &&& 0xFF)).set
                      (address + 1) ((v >>> 16) &&& 0xFF)).set
                      (address + 2) ((v >>> 8) &&& 0xFF)).set
                      (address + 3) (v &&& 0xFF)) }

end Mips32

namespace Mips

/-- `mips.CPU` (src/internal/mips/cpu.go): the MIPS CPU state owned by the
fetch-execute loop.  The `Memory` pointer and the atomic `running` flag are
external collaborators of the register-file claims and are omitted; no
operation modelled here reads them. -/
structure CPU where
  registers : List Nat
  PC : Nat
  inDelay : Bool
  cp0 : COP0
deriving DecidableEq

/-- `mips.NewCPU` (src/internal/mips/cpu.go): zeroed registers, PC 0, a fresh
CP0 with a 16-entry TLB (`cop0TlbSize = 16`). -/
def NewCPU : CPU :=
  { registers := List.replicate 32 0, PC := 0, inDelay := false, cp0 := NewCOP0 16 }

/-- `CPU.GetReg` (src/internal/mips/cpu.go): value of register `n`, 0 for an
out-of-range index. -/
def CPU.GetReg (cpu : CPU) (n : Int) : Nat :=
  if n < 0 ∨ n > 31 then 0 else cpu.registers.getD n.toNat 0

/-- `CPU.SetReg` (src/internal/mips/cpu.go): set register `n`, ignoring
out-of-range indices and writes to `$0`. -/
def CPU.SetReg (cpu : CPU) (n : Int) (val : Nat) : CPU :=
  if n < 0 ∨ n > 31 then cpu
  else if n = 0 then cpu
  else { cpu with registers := cpu.registers.set n.toNat (mask32 val) }

/-- CPU states reachable by sequences of operations of the `mips` package.
`CPU.SetReg` (cpu.go line 110) holds the only assignment to `registers` in
the package, so every other operation (`SetBadVAddr`, `SetCP0Reg`, the CP0
calls in the run loop, the executor, ...) is covered by `frame`, which admits
any transition that leaves the register file unchanged. -/
inductive Reached : CPU → Prop where
  | new : Reached NewCPU
  | setReg (c : CPU) (n : Int) (v : Nat) : Reached c → Reached (c.SetReg n v)
  | frame (c c' : CPU) : Reached c → c'.registers = c.registers → Reached c'

end Mips

namespace Mips32

/-- Modelled from the spec: the `mips32` package's CPU struct is not under
src/ (only its executor in src/unnamed/part_003, its memory, and its tests
are).  Spec §3 lists the CPU state: `GPR[0..31]` (hard-wired zero `$0`
behind a single setter), `PC`, signed `HI`/`LO` accumulators, the `in_delay`
flag, and the atomic `running` flag; the executor also reaches the CP0
through the CPU.  `HI`/`LO` hold the bit patterns of the `int32` fields. -/
structure CPU where
  registers : List Nat
  PC : Nat
  LO : Nat
  HI : Nat
  inDelay : Bool
  running : Bool
  cp0 : COP0
deriving DecidableEq

/-- Modelled from the spec: `GPR[0]` reads return zero and out-of-range
indices read as zero (spec §3 and §7), mirroring `mips.CPU.GetReg`. -/
def CPU.GetReg (cpu : CPU) (n : Nat) : Nat :=
  if n > 31 then 0 else cpu.registers.getD n 0

/-- Modelled from the spec: writes to `GPR[0]` are silently discarded and
out-of-range indices ignored (spec §3 and §7), mirroring `mips.CPU.SetReg`. -/
def CPU.SetReg (cpu : CPU) (n : Nat) (val : Nat) : CPU :=
  if n > 31 then cpu
  else if n = 0 then cpu
  else { cpu with registers := cpu.registers.set n (mask32 val) }

/-- Modelled from the spec: a fresh CPU has zeroed registers, `PC = 0`, and a
CP0 with the default 16-entry TLB (spec §3, §6). -/
def NewCPU : CPU :=
  { registers := List.replicate 32 0, PC := 0, LO := 0, HI := 0
    inDelay := false, running := false, cp0 := NewCOP0 16 }

/-- `mips32.RTypeInstruction` (src/unnamed/part_003). -/
structure RTypeInstruction where
  Opcode : Nat
  Rs : Nat
  Rt : Nat
  Rd : Nat
  Shamt : Nat
  Funct : Nat
deriving DecidableEq

/-- `RTypeInstruction.Decode` (src/unnamed/part_003). -/
def RTypeInstruction.Decode (instr : Nat) : RTypeInstruction :=
  { Opcode := (instr >>> 26) &&& 0x3F
    Rs := (instr >>> 21) &&& 0x1F
    Rt := (instr >>> 16) &&& 0x1F
    Rd := (instr >>> 11) &&& 0x1F
    Shamt := (instr >>> 6) &&& 0x1F
    Funct := instr &&& 0x3F }

/-- `mips32.ITypeInstruction` (src/unnamed/part_003). -/
structure ITypeInstruction where
  Opcode : Nat
  Rs : Nat
  Rt : Nat
  Immediate : Nat
deriving DecidableEq

/-- `ITypeInstruction.Decode` (src/unnamed/part_003). -/
def ITypeInstruction.Decode (instr : Nat) : ITypeInstruction :=
  { Opcode := (instr >>> 26) &&& 0x3F
    Rs := (instr >>> 21) &&& 0x1F
    Rt := (instr >>> 16) &&& 0x1F
    Immediate := instr &&& 0xFFFF }

/-- `mips32.JTypeInstruction` (src/unnamed/part_003). -/
structure JTypeInstruction where
  Opcode : Nat
  Addr : Nat
deriving DecidableEq

/-- `JTypeInstruction.Decode` (src/unnamed/part_003). -/
def JTypeInstruction.Decode (instr : Nat) : JTypeInstruction :=
  { Opcode := (instr >>> 26) &&& 0x3F
    Addr := instr &&& 0x3FFFFFF }

/-- `mips32.COP0Instruction` (src/unnamed/part_003). -/
structure COP0Instruction where
  Opcode : Nat
  Rs : Nat
  Rt : Nat
  Rd : Nat
  Sel : Nat
  Funct : Nat
deriving DecidableEq

/-- `COP0Instruction.Decode` (src/unnamed/part_003). -/
def COP0Instruction.Decode (instr : Nat) : COP0Instruction :=
  { Opcode := (instr >>> 26) &&& 0x3F
    Rs := (instr >>> 21) &&& 0x1F
    Rt := (instr >>> 16) &&& 0x1F
    Rd := (instr >>> 11) &&& 0x1F
    Sel := instr &&& 0x7
    Funct := instr &&& 0x3F }

/-- The decoded instruction forms of the `mips32` package (the Go source uses
an `Instruction` interface with these four implementations). -/
inductive Instruction where
  | r : RTypeInstruction → Instruction
  | i : ITypeInstruction → Instruction
  | j : JTypeInstruction → Instruction
  | cop0 : COP0Instruction → Instruction
deriving DecidableEq

/-- `mips32.DecodeInstruction` (src/unnamed/part_003): dispatch a 32-bit word
on its top-6 opcode bits to one of the four decoded forms. -/
def DecodeInstruction (instr : Nat) : Instruction :=
  let opcode := (instr >>> 26) &&& 0x3F
  if opcode = 0x10 then .cop0 (COP0Instruction.Decode instr)
  else if opcode = 0x0 then .r (RTypeInstruction.Decode instr)
  else if opcode = 0x2 ∨ opcode = 0x3 then .j (JTypeInstruction.Decode instr)
  else .i (ITypeInstruction.Decode instr)

/-- The CPU state change of raising a guest exception from the executor
(src/unnamed/part_003 repeats this block at every `RaiseException` site):
`cpu.PC = vec; cpu.inDelay = false`. -/
def CPU.raiseExc (cpu : CPU) (excCode : Nat) : CPU :=
  let (vec, cp0) := cpu.cp0.RaiseException excCode cpu.PC cpu.inDelay
  { cpu with cp0 := cp0, PC := vec, inDelay := false }

/-- `RTypeInstruction.Execute` (src/unnamed/part_003): dispatch on `Funct`.
Each case is transcribed in the source's order; the fall-through of the Go
`switch` returns `(nil, false)` without touching the state. -/
def RTypeInstruction.Execute (ri : RTypeInstruction) (cpu : CPU) :
    Option Nat × Bool × CPU :=
  let funct := ri.Funct
  if funct = 0x20 then
    let rsVal := toI32 (cpu.GetReg ri.Rs)
    let rtVal := toI32 (cpu.GetReg ri.Rt)
    let temp := wrapI32 (rsVal + rtVal)
    if CheckAdditionOverflow rsVal rtVal temp then (none, false, cpu.raiseExc 12)
    else (none, false, cpu.SetReg ri.Rd (ofI32 temp))
  else if funct = 0x28 then
    (none, false, cpu.SetReg ri.Rd (mask32 (cpu.GetReg ri.Rs + cpu.GetReg ri.Rt)))
  else if funct = 0x24 then
    (none, false, cpu.SetReg ri.Rd (cpu.GetReg ri.Rs &&& cpu.GetReg ri.Rt))
  else if funct = 0x1A then
    let rsVal := toI32 (cpu.GetReg ri.Rs)
    let rtVal := toI32 (cpu.GetReg ri.Rt)
    if rtVal = 0 then (none, false, { cpu with LO := 0, HI := 0 })
    else (none, false, { cpu with LO := ofI32 (Int.tdiv rsVal rtVal)
                                  HI := ofI32 (Int.tmod rsVal rtVal) })
  else if funct = 0x1B then
    let rsVal := cpu.GetReg ri.Rs
    let rtVal := cpu.GetReg ri.Rt
    if rtVal = 0 then (none, false, { cpu with LO := 0, HI := 0 })
    else (none, false, { cpu with LO := rsVal / rtVal, HI := rsVal % rtVal })
  else if funct = 0x09 then
    let rsVal := cpu.GetReg ri.Rs
    let retAddr := mask32 (cpu.PC + 8)
    let cpu := if ri.Rd ≠ 0 then cpu.SetReg ri.Rd retAddr else cpu
    (some rsVal, true, cpu)
  else if funct = 0x08 then
    (some (cpu.GetReg ri.Rs), true, cpu)
  else if funct = 0x10 then
    (none, false, cpu.SetReg ri.Rd cpu.HI)
  else if funct = 0x12 then
    (none, false, cpu.SetReg ri.Rd cpu.LO)
  else if funct = 0x0B then
    if cpu.GetReg ri.Rt ≠ 0 then (none, false, cpu.SetReg ri.Rd (cpu.GetReg ri.Rs))
    else (none, false, cpu)
  else if funct = 0x0A then
    if cpu.GetReg ri.Rt = 0 then (none, false, cpu.SetReg ri.Rd (cpu.GetReg ri.Rs))
    else (none, false, cpu)
  else if funct = 0x11 then
    (none, false, { cpu with HI := cpu.GetReg ri.Rs })
  else if funct = 0x13 then
    (none, false, { cpu with LO := cpu.GetReg ri.Rs })
  else if funct = 0x18 then
    let prod := toI32 (cpu.GetReg ri.Rs) * toI32 (cpu.GetReg ri.Rt)
    (none, false, { cpu with LO := ofI32 prod, HI := ofI32 (Int.fdiv prod 4294967296) })
  else if funct = 0x19 then
    let prod := cpu.GetReg ri.Rs * cpu.GetReg ri.Rt
    (none, false, { cpu with LO := prod &&& 0xFFFFFFFF
                             HI := (prod >>> 32) &&& 0xFFFFFFFF })
  else if funct = 0x27 then
    (none, false, cpu.SetReg ri.Rd ((cpu.GetReg ri.Rs ||| cpu.GetReg ri.Rt) ^^^ 0xFFFFFFFF))
  else if funct = 0x25 then
    (none, false, cpu.SetReg ri.Rd (cpu.GetReg ri.Rs ||| cpu.GetReg ri.Rt))
  else if funct = 0x00 then
    (none, false, cpu.SetReg ri.Rd (mask32 (cpu.GetReg ri.Rt <<< ri.Shamt)))
  else if funct = 0x04 then
    let s := cpu.GetReg ri.Rs &&& 0xF
    (none, false, cpu.SetReg ri.Rd (mask32 (cpu.GetReg ri.Rt <<< s)))
  else if funct = 0x2A then
    if toI32 (cpu.GetReg ri.Rs) < toI32 (cpu.GetReg ri.Rt)
    then (none, false, cpu.SetReg ri.Rd 1)
    else (none, false, cpu.SetReg ri.Rd 0)
  else if funct = 0x2B then
    if cpu.GetReg ri.Rs < cpu.GetReg ri.Rt
    then (none, false, cpu.SetReg ri.Rd 1)
    else (none, false, cpu.SetReg ri.Rd 0)
  else if funct = 0x03 then
    let s := ri.Shamt &&& 0x1F
    (none, false, cpu.SetReg ri.Rd (ofI32 (Int.fdiv (toI32 (cpu.GetReg ri.Rt)) (2 ^ s))))
  else if funct = 0x07 then
    let s := cpu.GetReg ri.Rs &&& 0x1F
    (none, false, cpu.SetReg ri.Rd (ofI32 (Int.fdiv (toI32 (cpu.GetReg ri.Rt)) (2 ^ s))))
  else if funct = 0x02 then
    let s := ri.Shamt &&& 0x1F
    (none, false, cpu.SetReg ri.Rd (cpu.GetReg ri.Rt >>> s))
  else if funct = 0x06 then
    let s := cpu.GetReg ri.Rs &&& 0x1F
    (none, false, cpu.SetReg ri.Rd (cpu.GetReg ri.Rt >>> s))
  else if funct = 0x22 then
    let rsVal := toI32 (cpu.GetReg ri.Rs)
    let rtVal := toI32 (cpu.GetReg ri.Rt)
    let temp := wrapI32 (rsVal - rtVal)
    if CheckSubtractionOverflow rsVal rtVal temp then (none, false, cpu.raiseExc 12)
    else (none, false, cpu.SetReg ri.Rd (ofI32 temp))
  else if funct = 0x23 then
    (none, false, cpu.SetReg ri.Rd (sub32 (cpu.GetReg ri.Rs) (cpu.GetReg ri.Rt)))
  else if funct = 0x34 then
    if cpu.GetReg ri.Rs = cpu.GetReg ri.Rt then (none, false, cpu.raiseExc 13)
    else (none, false, cpu)
  else if funct = 0x30 then
    if toI32 (cpu.GetReg ri.Rs) ≥ toI32 (cpu.GetReg ri.Rt)
    then (none, false, cpu.raiseExc 13) else (none, false, cpu)
  else if funct = 0x31 then
    if cpu.GetReg ri.Rs ≥ cpu.GetReg ri.Rt
    then (none, false, cpu.raiseExc 13) else (none, false, cpu)
  else if funct = 0x32 then
    if toI32 (cpu.GetReg ri.Rs) < toI32 (cpu.GetReg ri.Rt)
    then (none, false, cpu.raiseExc 13) else (none, false, cpu)
  else if funct = 0x33 then
    if cpu.GetReg ri.Rs < cpu.GetReg ri.Rt
    then (none, false, cpu.raiseExc 13) else (none, false, cpu)
  else if funct = 0x36 then
    if cpu.GetReg ri.Rs ≠ cpu.GetReg ri.Rt
    then (none, false, cpu.raiseExc 13) else (none, false, cpu)
  else if funct = 0x26 then
    (none, false, cpu.SetReg ri.Rd (cpu.GetReg ri.Rs ^^^ cpu.GetReg ri.Rt))
  else
    (none, false, cpu)

/-- `ITypeInstruction.Execute` (src/unnamed/part_003): a stub that does
nothing. -/
def ITypeInstruction.Execute (_ : ITypeInstruction) (cpu : CPU) :
    Option Nat × Bool × CPU :=
  (none, false, cpu)

/-- `JTypeInstruction.Execute` (src/unnamed/part_003): a stub that does
nothing. -/
def JTypeInstruction.Execute (_ : JTypeInstruction) (cpu : CPU) :
    Option Nat × Bool × CPU :=
  (none, false, cpu)

/-- `COP0Instruction.Execute` (src/unnamed/part_003): dispatch on `Rs`
(MFC0/MTC0/CO) and, for CO, on `Funct`. -/
def COP0Instruction.Execute (ci : COP0Instruction) (cpu : CPU) :
    Option Nat × Bool × CPU :=
  if ci.Rs = 0x00 then
    let (val, cp0) := cpu.cp0.Read (ci.Rd : Int) (ci.Sel : Int)
    (none, false, ({ cpu with cp0 := cp0 }).SetReg ci.Rt val)
  else if ci.Rs = 0x04 then
    (none, false, { cpu with cp0 := cpu.cp0.Write (ci.Rd : Int) (ci.Sel : Int) (cpu.GetReg ci.Rt) })
  else if ci.Rs = 0x10 then
    if ci.Funct = 0x18 then
      let (pc, cp0) := cpu.cp0.ERET
      (some pc, false, { cpu with cp0 := cp0 })
    else if ci.Funct = 0x08 then (none, false, { cpu with cp0 := cpu.cp0.TLBP })
    else if ci.Funct = 0x01 then (none, false, { cpu with cp0 := cpu.cp0.TLBR })
    else if ci.Funct = 0x02 then (none, false, { cpu with cp0 := cpu.cp0.TLBWI })
    else if ci.Funct = 0x06 then (none, false, { cpu with cp0 := cpu.cp0.TLBWR })
    else (none, false, cpu)
  else
    (none, false, cpu)

/-- Execution of a decoded instruction: the `Instruction` interface's
`Execute` dispatch. -/
def Instruction.Execute : Instruction → CPU → Option Nat × Bool × CPU
  | .r ri, cpu => ri.Execute cpu
  | .i ii, cpu => ii.Execute cpu
  | .j ji, cpu => ji.Execute cpu
  | .cop0 ci, cpu => ci.Execute cpu

/-- Decode-then-execute of a raw 32-bit word. -/
def ExecuteWord (cpu : CPU) (instr : Nat) : Option Nat × Bool × CPU :=
  (DecodeInstruction instr).Execute cpu

/-- The funct codes handled by `RTypeInstruction.Execute` (every `case` of
the Go switch in src/unnamed/part_003). -/
def rtypeFuncts : List Nat :=
  [0x20, 0x28, 0x24, 0x1A, 0x1B, 0x09, 0x08, 0x10, 0x12, 0x0B, 0x0A, 0x11,
   0x13, 0x18, 0x19, 0x27, 0x25, 0x00, 0x04, 0x2A, 0x2B, 0x03, 0x07, 0x02,
   0x06, 0x22, 0x23, 0x34, 0x30, 0x31, 0x32, 0x33, 0x36, 0x26]

/-- The COP0 `Funct` codes handled under `Rs = 0x10` (ERET and the TLB
operations). -/
def cop0Functs : List Nat := [0x18, 0x08, 0x01, 0x02, 0x06]

/-- An instruction word reaches an implemented handler of the `mips32`
executor: an R-type word whose funct is a `case` of the switch, or a COP0
word dispatching to MFC0, MTC0, or an implemented CO function.  All I-type
and J-type words fall to the stub executors. -/
def ImplementedWord (instr : Nat) : Bool :=
  match DecodeInstruction instr with
  | .r ri => rtypeFuncts.contains ri.Funct
  | .i _ => false
  | .j _ => false
  | .cop0 ci =>
      ci.Rs == 0x00 || ci.Rs == 0x04 || (ci.Rs == 0x10 && cop0Functs.contains ci.Funct)

/-- Concrete CPU for exercising ADD: `GPR[1] = GPR[2] = 0x80000000`, i.e.
both operands are the most negative `int32`. -/
def addInput : CPU :=
  { NewCPU with registers := ((List.replicate 32 0).set 1 0x80000000).set 2 0x80000000 }

/-- Concrete CPU for exercising SLLV: `GPR[1] = 16` (shift amount) and
`GPR[2] = 1` (value to shift). -/
def sllvInput : CPU :=
  { NewCPU with registers := ((List.replicate 32 0).set 1 16).set 2 1 }

end Mips32

/-- The CP0 Random-window invariant of the spec:
`Wired ≤ Random ≤ tlbSize − 1`. -/
def Inv (c : COP0) : Prop :=
  c.wired ≤ c.random ∧ c.random ≤ c.tlbSize - 1

instance (c : COP0) : Decidable (Inv c) := by
  unfold Inv
  infer_instance

/-- Well-formedness of a CP0: a positive TLB size that fits comfortably in
`uint32` arithmetic (any size producible by `NewCOP0` from a sane `int`
argument; the CPU always uses 16). -/
def WF (c : COP0) : Prop :=
  0 < c.tlbSize ∧ c.tlbSize ≤ 2147483648

instance (c : COP0) : Decidable (WF c) := by
  unfold WF
  infer_instance

/-! ## Theorems -/

/-- A single-bit mask test `x &&& 2^i ≠ 0` is exactly `testBit`. -/
theorem and_two_pow_ne_zero (x i : Nat) : (x &&& 2 ^ i) ≠ 0 ↔ x.testBit i = true := by
  rw [Nat.and_two_pow]
  cases h : x.testBit i <;> simp [h]

/-- Conjunction with a constant whose bit `i` is clear clears bit `i`. -/
theorem and_testBit_false (x i : Nat) {K : Nat} (hK : K.testBit i = false) :
    (x &&& K).testBit i = false := by
  simp [Nat.testBit_and, hK]

/-- A value below `2^5` is untouched by the 5-bit mask. -/
theorem and_31_eq_of_lt {e : Nat} (h : e < 32) : e &&& 31 = e := by
  have h2 := Nat.and_pow_two_sub_one_eq_mod e 5
  simp at h2
  omega

/-- Extracting bits `[6:2]` of `y` recovers `e < 32` when bits 2–6 of `y`
agree with bits 0–4 of `e`. -/
theorem extract_bits_2_6 (y e : Nat) (he : e < 32)
    (hbits : ∀ j, 2 ≤ j → j < 7 → y.testBit j = e.testBit (j - 2)) :
    (y >>> 2) &&& 31 = e := by
  apply Nat.eq_of_testBit_eq
  intro i
  simp only [Nat.testBit_and, Nat.testBit_shiftRight]
  by_cases hi : i < 5
  · have h31 : Nat.testBit 31 i = true := by interval_cases i <;> decide
    have hb := hbits (2 + i) (by omega) (by omega)
    rw [Nat.add_sub_cancel_left] at hb
    simp [h31, hb]
  · have h2i : 32 ≤ 2 ^ i := by
      calc (32 : Nat) = 2 ^ 5 := by norm_num
        _ ≤ 2 ^ i := Nat.pow_le_pow_right (by norm_num) (by omega)
    have h31 : Nat.testBit 31 i = false := Nat.testBit_lt_two_pow (by omega)
    have hei : e.testBit i = false := Nat.testBit_lt_two_pow (by omega)
    simp [h31, hei]

/-- Construction establishes the Random-window invariant for every argument. -/
theorem inv_new (n : Int) : Inv (NewCOP0 n) := by
  simp only [NewCOP0, Inv, mask32, two32]
  split_ifs <;> constructor <;> omega

/-- `NewCOP0` is well-formed for every sane `int` argument. -/
theorem wf_new (n : Int) (h : n ≤ 2147483648) : WF (NewCOP0 n) := by
  simp only [NewCOP0, WF]
  split_ifs with h0
  · constructor <;> omega
  · constructor <;> omega

/-- `Step` preserves the Random-window invariant. -/
theorem inv_step (c : COP0) (hwf : WF c) (hinv : Inv c) : Inv c.Step := by
  obtain ⟨hpos, hbound⟩ := hwf
  obtain ⟨h1, h2⟩ := hinv
  simp only [COP0.Step]
  split_ifs <;> simp_all [Inv, mask32, sub32, two32] <;> omega

/-- `Tick` preserves the Random-window invariant (it touches only Count and
Cause). -/
theorem inv_tick (c : COP0) (k : Nat) (hinv : Inv c) : Inv (c.Tick k) := by
  simp only [COP0.Tick]
  split_ifs <;> exact hinv

/-- The Random-register write clamps into the window. -/
theorem inv_writeRandomCase (c : COP0) (val : Nat) (hwf : WF c) (hinv : Inv c) :
    Inv (c.writeRandomCase val) := by
  obtain ⟨hpos, hbound⟩ := hwf
  obtain ⟨h1, h2⟩ := hinv
  simp only [COP0.writeRandomCase, Inv]
  split_ifs <;> simp_all [mask32, two32] <;> omega

/-- The Wired-register write re-establishes the window. -/
theorem inv_writeWiredCase (c : COP0) (val : Nat) (hwf : WF c) (hinv : Inv c) :
    Inv (c.writeWiredCase val) := by
  obtain ⟨hpos, hbound⟩ := hwf
  obtain ⟨h1, h2⟩ := hinv
  have hv63 : val % 4294967296 &&& 63 ≤ 63 := Nat.and_le_right
  simp only [COP0.writeWiredCase, Inv]
  split_ifs <;> simp_all [mask32, two32] <;> omega

set_option maxHeartbeats 1000000 in
/-- `Write` to any `(reg, sel)` preserves the Random-window invariant:
every case other than Random and Wired leaves all three fields alone. -/
theorem inv_write (c : COP0) (reg sel : Int) (val : Nat) (hwf : WF c) (hinv : Inv c) :
    Inv (c.Write reg sel val) := by
  by_cases h0 : reg = 0
  · norm_num [COP0.Write, h0]
    repeat' split
    all_goals first
      | exact hinv
      | exact inv_writeRandomCase c val hwf hinv
      | exact inv_writeWiredCase c val hwf hinv
  by_cases h1 : reg = 1
  · norm_num [COP0.Write, h1]
    repeat' split
    all_goals first
      | exact hinv
      | exact inv_writeRandomCase c val hwf hinv
      | exact inv_writeWiredCase c val hwf hinv
  by_cases h2 : reg = 2
  · norm_num [COP0.Write, h2]
    repeat' split
    all_goals first
      | exact hinv
      | exact inv_writeRandomCase c val hwf hinv
      | exact inv_writeWiredCase c val hwf hinv
  by_cases h3 : reg = 3
  · norm_num [COP0.Write, h3]
    repeat' split
    all_goals first
      | exact hinv
      | exact inv_writeRandomCase c val hwf hinv
      | exact inv_writeWiredCase c val hwf hinv
  by_cases h4 : reg = 4
  · norm_num [COP0.Write, h4]
    repeat' split
    all_goals first
      | exact hinv
      | exact inv_writeRandomCase c val hwf hinv
      | exact inv_writeWiredCase c val hwf hinv
  by_cases h5 : reg = 5
  · norm_num [COP0.Write, h5]
    repeat' split
    all_goals first
      | exact hinv
      | exact inv_writeRandomCase c val hwf hinv
      | exact inv_writeWiredCase c val hwf hinv
  by_cases h6 : reg = 6
  · norm_num [COP0.Write, h6]
    repeat' split
    all_goals first
      | exact hinv
      | exact inv_writeRandomCase c val hwf hinv
      | exact inv_writeWiredCase c val hwf hinv
  by_cases h8 : reg = 8
  · norm_num [COP0.Write, h8]
    repeat' split
    all_goals first
      | exact hinv
      | exact inv_writeRandomCase c val hwf hinv
      | exact inv_writeWiredCase c val hwf hinv
  by_cases h9 : reg = 9
  · norm_num [COP0.Write, h9]
    repeat' split
    all_goals first
      | exact hinv
      | exact inv_writeRandomCase c val hwf hinv
      | exact inv_writeWiredCase c val hwf hinv
  by_cases h10 : reg = 10
  · norm_num [COP0.Write, h10]
    repeat' split
    all_goals first
      | exact hinv
      | exact inv_writeRandomCase c val hwf hinv
      | exact inv_writeWiredCase c val hwf hinv
  by_cases h11 : reg = 11
  · norm_num [COP0.Write, h11]
    repeat' split
    all_goals first
      | exact hinv
      | exact inv_writeRandomCase c val hwf hinv
      | exact inv_writeWiredCase c val hwf hinv
  by_cases h12 : reg = 12
  · norm_num [COP0.Write, h12]
    repeat' split
    all_goals first
      | exact hinv
      | exact inv_writeRandomCase c val hwf hinv
      | exact inv_writeWiredCase c val hwf hinv
  by_cases h13 : reg = 13
  · norm_num [COP0.Write, h13]
    repeat' split
    all_goals first
      | exact hinv
      | exact inv_writeRandomCase c val hwf hinv
      | exact inv_writeWiredCase c val hwf hinv
  by_cases h14 : reg = 14
  · norm_num [COP0.Write, h14]
    repeat' split
    all_goals first
      | exact hinv
      | exact inv_writeRandomCase c val hwf hinv
      | exact inv_writeWiredCase c val hwf hinv
  by_cases h15 : reg = 15
  · norm_num [COP0.Write, h15]
    repeat' split
    all_goals first
      | exact hinv
      | exact inv_writeRandomCase c val hwf hinv
      | exact inv_writeWiredCase c val hwf hinv
  by_cases h16 : reg = 16
  · norm_num [COP0.Write, h16]
    repeat' split
    all_goals first
      | exact hinv
      | exact inv_writeRandomCase c val hwf hinv
      | exact inv_writeWiredCase c val hwf hinv
  by_cases h17 : reg = 17
  · norm_num [COP0.Write, h17]
    repeat' split
    all_goals first
      | exact hinv
      | exact inv_writeRandomCase c val hwf hinv
      | exact inv_writeWiredCase c val hwf hinv
  by_cases h18 : reg = 18
  · norm_num [COP0.Write, h18]
    repeat' split
    all_goals first
      | exact hinv
      | exact inv_writeRandomCase c val hwf hinv
      | exact inv_writeWiredCase c val hwf hinv
  by_cases h19 : reg = 19
  · norm_num [COP0.Write, h19]
    repeat' split
    all_goals first
      | exact hinv
      | exact inv_writeRandomCase c val hwf hinv
      | exact inv_writeWiredCase c val hwf hinv
  by_cases h20 : reg = 20
  · norm_num [COP0.Write, h20]
    repeat' split
    all_goals first
      | exact hinv
      | exact inv_writeRandomCase c val hwf hinv
      | exact inv_writeWiredCase c val hwf hinv
  by_cases h30 : reg = 30
  · norm_num [COP0.Write, h30]
    repeat' split
    all_goals first
      | exact hinv
      | exact inv_writeRandomCase c val hwf hinv
      | exact inv_writeWiredCase c val hwf hinv
  simp only [COP0.Write, if_neg h0, if_neg h1, if_neg h2, if_neg h3, if_neg h4, if_neg h5, if_neg h6, if_neg h8, if_neg h9, if_neg h10, if_neg h11, if_neg h12, if_neg h13, if_neg h14, if_neg h15, if_neg h16, if_neg h17, if_neg h18, if_neg h19, if_neg h20, if_neg h30]
  exact hinv

/-- `TLBWR` preserves the Random-window invariant. -/
theorem inv_tlbwr (c : COP0) (hwf : WF c) (hinv : Inv c) : Inv c.TLBWR := by
  simp only [COP0.TLBWR]
  split_ifs <;> first
    | exact hinv
    | exact inv_step _ hwf hinv

/-- `RaiseException` preserves the Random-window invariant (it touches only
Cause, EPC, and Status). -/
theorem inv_raise (c : COP0) (e pc : Nat) (d : Bool) :
    Inv c → Inv ((c.RaiseException e pc d).2) := by
  intro hinv
  exact hinv

/-- Executing an R-type form whose funct is not a `case` of the Go switch
falls through and leaves the CPU untouched. -/
theorem rtype_fallthrough (op rs rt rd sh fu : Nat) (cpu : Mips32.CPU)
    (hb : fu < 64) (h : Mips32.rtypeFuncts.contains fu = false) :
    Mips32.RTypeInstruction.Execute ⟨op, rs, rt, rd, sh, fu⟩ cpu = (none, false, cpu) := by
  interval_cases fu <;> first | rfl | exact absurd h (by decide)

/-- Executing a COP0 form whose `Rs`/`Funct` dispatch reaches no handler
leaves the CPU untouched. -/
theorem cop0_fallthrough (op rs rt rd sel fu : Nat) (cpu : Mips32.CPU)
    (hrs : rs < 32) (hfu : fu < 64)
    (h : (rs == 0x00 || rs == 0x04 || (rs == 0x10 && Mips32.cop0Functs.contains fu)) = false) :
    Mips32.COP0Instruction.Execute ⟨op, rs, rt, rd, sel, fu⟩ cpu = (none, false, cpu) := by
  simp only [Bool.or_eq_false_iff, Bool.and_eq_false_iff, beq_eq_false_iff_ne] at h
  obtain ⟨⟨h0, h4⟩, h16⟩ := h
  rcases h16 with h16 | hc
  · interval_cases rs <;> first | rfl | exact absurd rfl h0 | exact absurd rfl h4 |
      exact absurd rfl h16
  · interval_cases rs <;> first | rfl | exact absurd rfl h0 | exact absurd rfl h4 |
      (interval_cases fu <;> first | rfl | exact absurd hc (by decide))

/-- C10: `COP0.Read` is side-effect-free: for every `(reg, sel)` pair the
returned state is exactly the input state — every architectural register,
the TLB array, Random, and Count included. -/
theorem C10_read_is_pure (c : COP0) (reg sel : Int) : (c.Read reg sel).2 = c := by
  simp only [COP0.Read, apply_ite Prod.snd, ite_self]

/-- C2 fails on the code: writing the legally-masked entry
`EntryHi = 0`, `EntryLo0 = 0x40` (PFN = 1), `EntryLo1 = 0`, `PageMask = 0`
at Index 0 (P clear, `0 < 16`) with TLBWI and reading it back with TLBR
returns `EntryLo0 = 0`, not `0x40`: `writeTLBAt` stores the PFN as
`(lo0 >> 6) & 0xFFFFFC0` while `TLBR` emits `PFN0 & 0xFFFFFC0` without
shifting back, so the PFN bits are lost. -/
theorem C2_tlb_roundtrip_fails :
    ((({ NewCOP0 16 with entryLo0 := 0x40 }).TLBWI).TLBR).entryLo0 = 0 ∧
    0x40 &&& 0x3FFFFFFF = 0x40 ∧
    (NewCOP0 16).index &&& 0x80000000 = 0 ∧
    (NewCOP0 16).index &&& 0x3F < (NewCOP0 16).tlbSize := by
  decide

/-- C3 fails on the code: on a 4-byte memory, the aligned address 0 with
`0+3` inside the array is rejected by both `LoadWord` and `StoreWord`,
because `isAddressInRange` is called on `address+3` and itself adds 3
again, effectively demanding `address+6 < len`. -/
theorem C3_last_word_rejected :
    Mips32.Memory.LoadWord ⟨List.replicate 4 0⟩ 0 = none ∧
    Mips32.Memory.StoreWord ⟨List.replicate 4 0⟩ 0 0xDEADBEEF = none ∧
    0 % 4 = 0 ∧ 0 + 3 < 4 := by
  decide

/-- C4 fails on the code: with `GPR[1] = GPR[2] = 0x80000000` (both
`-2^31`), the signed sum `-2^32` overflows `int32`, but the wrapped sum is
0, which `CheckAdditionOverflow` does not classify as overflow (it demands
a strictly positive wrapped sum); so ADD leaves CP0 untouched (no `Ov`
raised, EXL stays 0) and writes `GPR[3]`. -/
theorem C4_add_misses_min_overflow :
    (Mips32.RTypeInstruction.Execute ⟨0, 1, 2, 3, 0, 0x20⟩ Mips32.addInput).2.2.cp0 =
      Mips32.addInput.cp0 ∧
    Mips32.addInput.cp0.status &&& 0x2 = 0 ∧
    toI32 (Mips32.addInput.GetReg 1) + toI32 (Mips32.addInput.GetReg 2) < -2147483648 ∧
    CheckAdditionOverflow (toI32 (Mips32.addInput.GetReg 1))
      (toI32 (Mips32.addInput.GetReg 2))
      (wrapI32 (toI32 (Mips32.addInput.GetReg 1) + toI32 (Mips32.addInput.GetReg 2))) =
      false := by
  decide

/-- C8 fails on the code: with `GPR[1] = 16` and `GPR[2] = 1`, SLLV
(funct 0x04) produces `GPR[3] = 1` because the shift amount is masked with
`0xF` (low 4 bits), whereas the low 5 bits of `GPR[1]` are `16` and the
architectural result would be `1 << 16 = 65536`. -/
theorem C8_sllv_uses_4_bit_mask :
    (Mips32.RTypeInstruction.Execute ⟨0, 1, 2, 3, 0, 0x04⟩ Mips32.sllvInput).2.2.GetReg 3 = 1 ∧
    Mips32.sllvInput.GetReg 1 &&& 0x1F = 16 ∧
    mask32 (Mips32.sllvInput.GetReg 2 <<< 16) = 65536 := by
  decide

set_option maxRecDepth 8192 in
/-- C5 (amended): decoding is total — every 32-bit word yields one of the
four decoded forms — and executing a word whose encoding is not one of the
implemented instructions is a silent no-op: it returns no new PC and no
delay-slot flag and leaves the whole CPU state (CP0 included) unchanged, so
in particular no RI exception is raised. -/
theorem C5_decode_total_and_unknown_noop :
    (∀ w : Nat,
      (∃ ri, Mips32.DecodeInstruction w = .r ri) ∨
      (∃ ii, Mips32.DecodeInstruction w = .i ii) ∨
      (∃ ji, Mips32.DecodeInstruction w = .j ji) ∨
      (∃ ci, Mips32.DecodeInstruction w = .cop0 ci)) ∧
    (∀ (cpu : Mips32.CPU) (w : Nat), Mips32.ImplementedWord w = false →
      Mips32.ExecuteWord cpu w = (none, false, cpu)) := by
  constructor
  · intro w
    simp only [Mips32.DecodeInstruction]
    split_ifs
    · exact Or.inr (Or.inr (Or.inr ⟨_, rfl⟩))
    · exact Or.inl ⟨_, rfl⟩
    · exact Or.inr (Or.inr (Or.inl ⟨_, rfl⟩))
    · exact Or.inr (Or.inl ⟨_, rfl⟩)
  · intro cpu w h
    simp only [Mips32.ImplementedWord, Mips32.DecodeInstruction] at h
    simp only [Mips32.ExecuteWord, Mips32.DecodeInstruction]
    have hfu : w &&& 0x3F < 64 := Nat.lt_succ_of_le (Nat.and_le_right)
    have hrs : (w >>> 21) &&& 0x1F < 32 := Nat.lt_succ_of_le (Nat.and_le_right)
    split_ifs at h ⊢
    · exact cop0_fallthrough _ _ _ _ _ _ cpu hrs hfu h
    · exact rtype_fallthrough _ _ _ _ _ _ cpu hfu h
    · rfl
    · rfl

/-- Witness for C5: the R-type word `0x0000003F` is not implemented, and the
theorem's no-op conclusion evaluates as stated on a fresh CPU. -/
theorem C5_decode_total_and_unknown_noop_witness :
    Mips32.ImplementedWord 0x3F = false ∧
    Mips32.ExecuteWord Mips32.NewCPU 0x3F = (none, false, Mips32.NewCPU) :=
  ⟨by decide, C5_decode_total_and_unknown_noop.2 Mips32.NewCPU 0x3F (by decide)⟩

/-- C7: the invariant `Wired ≤ Random ≤ tlbSize − 1` holds after
construction (for every `int` argument, sane ones also giving a well-formed
CP0) and is preserved by every CP0 operation: `Step`, `Tick`, `Write` to any
register (Wired and Random included), `TLBWR`, and `RaiseException`. -/
theorem C7_random_window_invariant :
    (∀ n : Int, Inv (NewCOP0 n)) ∧
    (∀ n : Int, n ≤ 2147483648 → WF (NewCOP0 n)) ∧
    (∀ c : COP0, WF c → Inv c → Inv c.Step) ∧
    (∀ (c : COP0) (k : Nat), Inv c → Inv (c.Tick k)) ∧
    (∀ (c : COP0) (reg sel : Int) (val : Nat), WF c → Inv c → Inv (c.Write reg sel val)) ∧
    (∀ c : COP0, WF c → Inv c → Inv c.TLBWR) ∧
    (∀ (c : COP0) (e pc : Nat) (d : Bool), Inv c → Inv ((c.RaiseException e pc d).2)) :=
  ⟨inv_new, wf_new,
   inv_step,
   inv_tick,
   fun c reg sel val hwf hinv => inv_write c reg sel val hwf hinv,
   inv_tlbwr,
   inv_raise⟩

/-- Witness for C7: on the 16-entry CP0 the invariant holds at construction
and is preserved through a Step, a Wired write, a Random write, a TLBWR, and
an exception raise. -/
theorem C7_random_window_invariant_witness :
    Inv (NewCOP0 16) ∧ WF (NewCOP0 16) ∧ Inv ((NewCOP0 16).Step) ∧
    Inv ((NewCOP0 16).Write 6 0 63) ∧ Inv ((NewCOP0 16).Write 1 0 99) ∧
    Inv ((NewCOP0 16).TLBWR) ∧ Inv (((NewCOP0 16).RaiseException 0 0 false).2) :=
  have h := C7_random_window_invariant
  have hwf : WF (NewCOP0 16) := h.2.1 16 (by decide)
  have hinv : Inv (NewCOP0 16) := h.1 16
  ⟨hinv, hwf,
   h.2.2.1 _ hwf hinv,
   h.2.2.2.2.1 _ 6 0 63 hwf hinv,
   h.2.2.2.2.1 _ 1 0 99 hwf hinv,
   h.2.2.2.2.2.1 _ hwf hinv,
   h.2.2.2.2.2.2 _ 0 0 false hinv⟩

/-- C1: after `RaiseException(excCode, pc, inDelay)` (for any exception code,
i.e. any value fitting the 5-bit ExcCode field, and any `uint32` pc), the CP0
state satisfies: Cause bits `[6:2]` equal `excCode`; Status.EXL (bit 1) is 1;
Cause.BD (bit 31) equals `inDelay`; and EPC is `pc - 4` (wrapping `uint32`
subtraction) when `inDelay` and `pc` otherwise. -/
theorem C1_raise_exception_post (c : COP0) (excCode pc : Nat) (inDelay : Bool)
    (hexc : excCode < 32) (hpc : pc < two32) :
    (((c.RaiseException excCode pc inDelay).2.cause >>> 2) &&& 0x1F = excCode) ∧
    ((c.RaiseException excCode pc inDelay).2.status.testBit 1 = true) ∧
    ((c.RaiseException excCode pc inDelay).2.cause.testBit 31 = inDelay) ∧
    ((c.RaiseException excCode pc inDelay).2.epc =
      if inDelay then (pc + two32 - 4) % two32 else pc) := by
  have hexc31 : excCode &&& 0x1F = excCode := and_31_eq_of_lt hexc
  have hKj : ∀ j, j < 7 → 2 ≤ j →
      Nat.testBit (0xFFFFFFFF ^^^ (0x7C &&& 0xFFFFFFFF)) j = false := by decide
  have hBj : ∀ j, j < 7 → Nat.testBit (0x80000000 : Nat) j = false := by decide
  have hB31 : Nat.testBit (0x80000000 : Nat) 31 = true := by decide
  have hK2j : ∀ j, j < 7 → 2 ≤ j →
      Nat.testBit (0xFFFFFFFF ^^^ (0x80000000 &&& 0xFFFFFFFF)) j = true := by decide
  have hK231 : Nat.testBit (0xFFFFFFFF ^^^ (0x80000000 &&& 0xFFFFFFFF)) 31 = false := by decide
  have hmaskpc : mask32 pc = pc := Nat.mod_eq_of_lt hpc
  cases inDelay with
  | true =>
      simp only [COP0.RaiseException, if_true]
      refine ⟨?_, ?_, ?_, ?_⟩
      · apply extract_bits_2_6 _ _ hexc
        intro j h2 h7
        simp only [andNot, Nat.testBit_or, Nat.testBit_and, Nat.testBit_shiftLeft]
        rw [hKj j h7 h2, hBj j h7, decide_eq_true h2]
        have h31 : Nat.testBit 31 (j - 2) = true := by interval_cases j <;> decide
        simp [hexc31, h31]
      · have h21 : Nat.testBit 2 1 = true := by decide
        simp [Nat.testBit_or, h21]
      · simp [Nat.testBit_or, hB31]
      · rw [hmaskpc]
        rfl
  | false =>
      simp only [COP0.RaiseException, Bool.false_eq_true, if_false]
      refine ⟨?_, ?_, ?_, ?_⟩
      · apply extract_bits_2_6 _ _ hexc
        intro j h2 h7
        simp only [andNot, Nat.testBit_or, Nat.testBit_and, Nat.testBit_shiftLeft]
        rw [hKj j h7 h2, hK2j j h7 h2, decide_eq_true h2]
        have h31 : Nat.testBit 31 (j - 2) = true := by interval_cases j <;> decide
        simp [hexc31, h31]
      · have h21 : Nat.testBit 2 1 = true := by decide
        simp [Nat.testBit_or, h21]
      · simp only [andNot, Nat.testBit_and]
        rw [hK231]
        simp
      · exact hmaskpc

/-- Witness for C1: raising a reserved-instruction exception (code 10) at
`pc = 0x100` in a delay slot on a fresh CP0 sets ExcCode 10, EXL, BD, and
`EPC = 0xFC`. -/
theorem C1_raise_exception_post_witness :
    ((((NewCOP0 16).RaiseException 10 0x100 true).2.cause >>> 2) &&& 0x1F = 10) ∧
    (((NewCOP0 16).RaiseException 10 0x100 true).2.status.testBit 1 = true) ∧
    (((NewCOP0 16).RaiseException 10 0x100 true).2.cause.testBit 31 = true) ∧
    (((NewCOP0 16).RaiseException 10 0x100 true).2.epc =
      if true then (0x100 + two32 - 4) % two32 else 0x100) :=
  C1_raise_exception_post (NewCOP0 16) 10 0x100 true (by decide) (by decide)

/-- C6: for every CP0 state, ERET clears Cause.BD (bit 31); when Status.ERL
(bit 2) is 1 it clears ERL and returns ErrorEPC as the next PC, otherwise it
clears Status.EXL (bit 1) and returns EPC. -/
theorem C6_eret_clears_bd_and_returns (c : COP0) :
    ((c.ERET.2.cause.testBit 31 = false) ∧
     (if c.status.testBit 2 then
        c.ERET.1 = c.errorepc ∧ c.ERET.2.status.testBit 2 = false
      else
        c.ERET.1 = c.epc ∧ c.ERET.2.status.testBit 1 = false)) := by
  have hcond : ((c.status &&& 0x4 ≠ 0)) ↔ c.status.testBit 2 = true := by
    simpa using and_two_pow_ne_zero c.status 2
  constructor
  · have hc : c.ERET.2.cause = andNot c.cause 0x80000000 := by
      simp only [COP0.ERET]
      split <;> rfl
    rw [hc]
    unfold andNot
    exact and_testBit_false _ _ (by decide)
  · cases hb : c.status.testBit 2 with
    | true =>
        have h : ({ c with cause := andNot c.cause 0x80000000 } : COP0).status &&& 0x4 ≠ 0 := by
          show c.status &&& 0x4 ≠ 0
          exact hcond.mpr hb
        simp only [if_true]
        simp only [COP0.ERET]
        rw [if_pos h]
        refine ⟨rfl, ?_⟩
        show (andNot c.status 0x4).testBit 2 = false
        unfold andNot
        exact and_testBit_false _ _ (by decide)
    | false =>
        have h : ¬(({ c with cause := andNot c.cause 0x80000000 } : COP0).status &&& 0x4 ≠ 0) := by
          show ¬(c.status &&& 0x4 ≠ 0)
          simp only [hcond, hb]
          simp
        simp only [Bool.false_eq_true, if_false]
        simp only [COP0.ERET]
        rw [if_neg h]
        refine ⟨rfl, ?_⟩
        show (andNot c.status 0x2).testBit 1 = false
        unfold andNot
        exact and_testBit_false _ _ (by decide)

/-- C9: `GPR[0]` is hard-wired to zero.  In every CPU state reachable by a
sequence of operations of the `mips` package (`SetReg` writes plus arbitrary
register-preserving operations), `GetReg 0` returns 0, and `SetReg 0 v`
returns the state entirely unchanged for every value `v`. -/
theorem C9_gpr0_hardwired (c : Mips.CPU) (h : Mips.Reached c) :
    c.GetReg 0 = 0 ∧ ∀ v : Nat, c.SetReg 0 v = c := by
  refine ⟨?_, ?_⟩
  · have key : c.registers.getD 0 0 = 0 := by
      induction h with
      | new => rfl
      | setReg c n v hc ih =>
          unfold Mips.CPU.SetReg
          split_ifs with h1 h2
          · exact ih
          · exact ih
          · have hn : n.toNat ≠ 0 := by omega
            simpa [List.getD_eq_getElem?_getD, List.getElem?_set_ne hn] using ih
      | frame c c' hc hreg ih =>
          rw [hreg]
          exact ih
    unfold Mips.CPU.GetReg
    rw [if_neg (by decide)]
    exact key
  · intro v
    unfold Mips.CPU.SetReg
    rw [if_neg (by decide), if_pos rfl]

/-- Witness for C9: after the reachable sequence `NewCPU; SetReg 5 7`, the
zero register still reads 0 and a write to it is a no-op. -/
theorem C9_gpr0_hardwired_witness :
    (Mips.NewCPU.SetReg 5 7).GetReg 0 = 0 ∧
    (Mips.NewCPU.SetReg 5 7).SetReg 0 123 = Mips.NewCPU.SetReg 5 7 :=
  have h := C9_gpr0_hardwired _ (Mips.Reached.setReg _ 5 7 Mips.Reached.new)
  ⟨h.1, h.2 123⟩

/-- C5 fails on the code as stated: the word `0x0000003F` (opcode 0,
funct 0x3F, not an implemented instruction) executes as a complete no-op on
a fresh CPU — the state, including CP0's Cause and Status, is returned
unchanged, so no RI (code 10) exception is raised (EXL stays 0 and
Cause stays 0). -/
theorem C5_reserved_word_raises_nothing :
    Mips32.ExecuteWord Mips32.NewCPU 0x3F = (none, false, Mips32.NewCPU) ∧
    Mips32.NewCPU.cp0.status &&& 0x2 = 0 ∧
    Mips32.NewCPU.cp0.cause = 0 := by
  decide

end AwesomeVM
